import Mathlib

/-!
Shallow embedding of the recyclable index-access layer of `tantivy-ext`
(src/util/async_retry.rs, src/index/writer_recycler.rs,
src/index/search_index.rs, src/index/recycling_index.rs), together with
theorems settling the specification claims about it.

Machine integers (`usize`) are modelled as `Nat`: none of the modelled
code performs arithmetic anywhere near overflow, and `entries + num`
on `usize` agrees with `Nat` addition below `2^64`.  `Duration` values
are modelled as rationals (milliseconds), and the RNG draw
`rng.gen_range(0.5..1.5)` is modelled as an oracle `jitter : Nat → ℚ`
giving the draw performed after each failed attempt.
-/

namespace TantivyExt

/-- Result of running a Rust function that can return `Ok`, return `Err`,
or panic (`unwrap()` / `expect(..)` / `unreachable!()`). -/
inductive Outcome (E T : Type) where
  | ok : T → Outcome E T
  | err : E → Outcome E T
  | panicked : Outcome E T
deriving DecidableEq, Repr

/-- Helper for one failed-and-retried iteration: the result of the rest of
the loop, with this iteration's attempt number and sleep duration
prepended to the recorded traces. -/
def consStep (attempt : Nat) (sleep : ℚ) (rest : Outcome E T × List Nat × List ℚ) :
    Outcome E T × List Nat × List ℚ :=
  (rest.1, attempt :: rest.2.1, sleep :: rest.2.2)

/-- Body of the `for attempt in 1..=max_retries` loop of
`retry_with_backoff` (src/src/util/async_retry.rs:54-86).  The first `Nat`
argument is the number of loop iterations left (`max_retries + 1 - attempt`);
when it reaches 0 the loop is exhausted and control falls through to the
trailing `unreachable!()`, modelled as `.panicked`.  Besides the outcome the
model records the list of attempt numbers at which `function` was invoked
and the list of sleep durations performed (in order). -/
def retryGo (function : Nat → Except E T) (max_retries : Nat) (jitter : Nat → ℚ) :
    Nat → Nat → ℚ → Outcome E T × List Nat × List ℚ
  | 0, _, _ => (.panicked, [], [])
  | remaining + 1, attempt, delay =>
    match function attempt with
    | .ok result => (.ok result, [attempt], [])
    | .error e =>
      if attempt < max_retries then
        consStep attempt (delay * jitter attempt)
          (retryGo function max_retries jitter remaining (attempt + 1) (delay * 2))
      else
        (.err e, [attempt], [])

/-- Model of `retry_with_backoff` (src/src/util/async_retry.rs:54-86):
run the loop starting at `attempt = 1` with `max_retries` iterations
available and `delay = initial_delay`. -/
def retry_with_backoff (function : Nat → Except E T) (max_retries : Nat)
    (initial_delay : ℚ) (jitter : Nat → ℚ) : Outcome E T × List Nat × List ℚ :=
  retryGo function max_retries jitter max_retries 1 initial_delay

/-- Model of `retry_with_backoff_async` (src/src/util/async_retry.rs:12-45).
Its body is identical to `retry_with_backoff` except that the closure is
awaited; the sequential behaviour is the same loop. -/
def retry_with_backoff_async (function : Nat → Except E T) (max_retries : Nat)
    (initial_delay : ℚ) (jitter : Nat → ℚ) : Outcome E T × List Nat × List ℚ :=
  retryGo function max_retries jitter max_retries 1 initial_delay

theorem retryGo_ok_of_first_success
    (f : Nat → Except E T) (max_retries : Nat) (jitter : Nat → ℚ)
    (k : Nat) (v : T) (hk : k ≤ max_retries) (hok : f k = .ok v) :
    ∀ r a d, a + r = max_retries + 1 → a ≤ k →
      (∀ j, a ≤ j → j < k → ∃ e, f j = .error e) →
      retryGo f max_retries jitter r a d =
        (.ok v, List.range' a (k + 1 - a),
          (List.range' a (k - a)).map fun i => d * 2 ^ (i - a) * jitter i) := by
  intro r
  induction r with
  | zero => intro a d h1 h2 _; omega
  | succ n ih =>
    intro a d h1 h2 hfail
    rcases eq_or_lt_of_le h2 with hak | hlt
    · subst hak
      have e1 : a + 1 - a = 1 := by omega
      have e2 : a - a = 0 := by omega
      simp [retryGo, hok, e1, e2, List.range'_one]
    · obtain ⟨e, he⟩ := hfail a le_rfl hlt
      have ham : a < max_retries := lt_of_lt_of_le hlt hk
      rw [retryGo, he]
      simp only [if_pos ham]
      rw [ih (a + 1) (d * 2) (by omega) (by omega)
        (fun j hj1 hj2 => hfail j (by omega) hj2)]
      have e1 : k + 1 - (a + 1) = k - a := by omega
      have e2 : k + 1 - a = (k - a) + 1 := by omega
      have e3 : k - a = (k - (a + 1)) + 1 := by omega
      rw [consStep, e1, e2]
      refine Prod.ext rfl (Prod.ext ?_ ?_)
      · show a :: List.range' (a + 1) (k - a) = List.range' a ((k - a) + 1)
        rw [List.range'_succ]
      · show d * jitter a ::
            (List.range' (a + 1) (k - (a + 1))).map
              (fun i => d * 2 * 2 ^ (i - (a + 1)) * jitter i) =
            (List.range' a (k - a)).map fun i => d * 2 ^ (i - a) * jitter i
        rw [e3, List.range'_succ, List.map_cons]
        have hhead : d * 2 ^ (a - a) * jitter a = d * jitter a := by
          have : a - a = 0 := by omega
          rw [this, pow_zero, mul_one]
        rw [hhead]
        congr 1
        refine List.map_congr_left fun i hi => ?_
        have hib : a + 1 ≤ i := (List.mem_range'_1.mp hi).1
        have hie : i - a = (i - (a + 1)) + 1 := by omega
        rw [hie, pow_succ]
        ring

theorem retryGo_err_of_all_fail
    (f : Nat → Except E T) (max_retries : Nat) (jitter : Nat → ℚ) :
    ∀ r a d, a + r = max_retries + 1 → a ≤ max_retries →
      (∀ j, a ≤ j → j ≤ max_retries → ∃ e, f j = .error e) →
      ∃ e, f max_retries = .error e ∧
        retryGo f max_retries jitter r a d =
          (.err e, List.range' a (max_retries + 1 - a),
            (List.range' a (max_retries - a)).map
              fun i => d * 2 ^ (i - a) * jitter i) := by
  intro r
  induction r with
  | zero => intro a d h1 h2 _; omega
  | succ n ih =>
    intro a d h1 h2 hfail
    rcases eq_or_lt_of_le h2 with hak | hlt
    · subst hak
      obtain ⟨e, he⟩ := hfail a le_rfl le_rfl
      refine ⟨e, he, ?_⟩
      have e1 : a + 1 - a = 1 := by omega
      have e2 : a - a = 0 := by omega
      simp [retryGo, he, e1, e2, List.range'_one]
    · obtain ⟨e, he⟩ := hfail a le_rfl (by omega)
      obtain ⟨elast, helast, hrec⟩ := ih (a + 1) (d * 2) (by omega) (by omega)
        (fun j hj1 hj2 => hfail j (by omega) hj2)
      refine ⟨elast, helast, ?_⟩
      rw [retryGo, he]
      simp only [if_pos hlt]
      rw [hrec]
      have e1 : max_retries + 1 - (a + 1) = max_retries - a := by omega
      have e2 : max_retries + 1 - a = (max_retries - a) + 1 := by omega
      have e3 : max_retries - a = (max_retries - (a + 1)) + 1 := by omega
      rw [consStep, e1, e2]
      refine Prod.ext rfl (Prod.ext ?_ ?_)
      · show a :: List.range' (a + 1) (max_retries - a) =
            List.range' a ((max_retries - a) + 1)
        rw [List.range'_succ]
      · show d * jitter a ::
            (List.range' (a + 1) (max_retries - (a + 1))).map
              (fun i => d * 2 * 2 ^ (i - (a + 1)) * jitter i) =
            (List.range' a (max_retries - a)).map
              fun i => d * 2 ^ (i - a) * jitter i
        rw [e3, List.range'_succ, List.map_cons]
        have hhead : d * 2 ^ (a - a) * jitter a = d * jitter a := by
          have : a - a = 0 := by omega
          rw [this, pow_zero, mul_one]
        rw [hhead]
        congr 1
        refine List.map_congr_left fun i hi => ?_
        have hib : a + 1 ≤ i := (List.mem_range'_1.mp hi).1
        have hie : i - a = (i - (a + 1)) + 1 := by omega
        rw [hie, pow_succ]
        ring

theorem retryGo_ne_panicked
    (f : Nat → Except E T) (max_retries : Nat) (jitter : Nat → ℚ) :
    ∀ r a d, a + r = max_retries + 1 → a ≤ max_retries →
      (retryGo f max_retries jitter r a d).1 ≠ .panicked := by
  intro r
  induction r with
  | zero => intro a d h1 h2; omega
  | succ n ih =>
    intro a d h1 h2
    rw [retryGo]
    cases hfa : f a with
    | ok v => simp
    | error e =>
      by_cases ham : a < max_retries
      · simp only [if_pos ham, consStep]
        exact ih (a + 1) (d * 2) (by omega) (by omega)
      · simp [if_neg ham]

/-- Claim C1: for every fallible commit operation and every
`max_retries ≥ 1`, the retry wrapper used by commit
(`SearchIndex::commit` calls `retry_with_backoff(|_| writer.commit(), 3, 100ms)`)
returns `Ok` with the result of the first successful attempt, making no
further attempts after a success (the attempt trace is exactly `[1..k]`);
if every one of the `max_retries` attempts fails it returns the error of
the last attempt; between consecutive failed attempts it sleeps
`base_delay * jitter` with `base_delay` doubling after every failed
attempt (the sleep after failed attempt `i` is
`initial_delay * 2^(i-1) * jitter i`), and it does not sleep after the
final failed attempt (exactly `max_retries - 1` sleeps when all fail). -/
theorem retry_with_backoff_first_success_and_last_error
    (f : Nat → Except E T) (max_retries : Nat) (initial_delay : ℚ)
    (jitter : Nat → ℚ) (hmr : 1 ≤ max_retries) :
    (∀ k v, 1 ≤ k → k ≤ max_retries → f k = .ok v →
      (∀ j, 1 ≤ j → j < k → ∃ e, f j = .error e) →
      retry_with_backoff f max_retries initial_delay jitter =
        (.ok v, List.range' 1 k,
          (List.range' 1 (k - 1)).map
            fun i => initial_delay * 2 ^ (i - 1) * jitter i))
    ∧ ((∀ j, 1 ≤ j → j ≤ max_retries → ∃ e, f j = .error e) →
      ∃ e, f max_retries = .error e ∧
        retry_with_backoff f max_retries initial_delay jitter =
          (.err e, List.range' 1 max_retries,
            (List.range' 1 (max_retries - 1)).map
              fun i => initial_delay * 2 ^ (i - 1) * jitter i)) := by
  constructor
  · intro k v hk1 hk hok hfail
    have h := retryGo_ok_of_first_success f max_retries jitter k v hk hok
      max_retries 1 initial_delay (by omega) hk1 hfail
    rw [retry_with_backoff, h]
    have e1 : k + 1 - 1 = k := by omega
    rw [e1]
  · intro hfail
    obtain ⟨e, he, h⟩ := retryGo_err_of_all_fail f max_retries jitter
      max_retries 1 initial_delay (by omega) hmr hfail
    refine ⟨e, he, ?_⟩
    rw [retry_with_backoff, h]
    have e1 : max_retries + 1 - 1 = max_retries := by omega
    rw [e1]

/-- Commit operation used by the C1 witness: fails on attempt 1,
succeeds on attempt 2. -/
def commitFailsOnce : Nat → Except Nat Nat := fun j => if j = 2 then .ok 5 else .error j

theorem retry_with_backoff_first_success_and_last_error_witness :
    1 ≤ 3 ∧
      retry_with_backoff commitFailsOnce 3 100 (fun _ => 1) =
        (.ok 5, List.range' 1 2,
          (List.range' 1 1).map fun i => (100 : ℚ) * 2 ^ (i - 1) * 1) := by
  refine ⟨by norm_num, ?_⟩
  exact (retry_with_backoff_first_success_and_last_error commitFailsOnce 3 100
      (fun _ => 1) (by norm_num)).1 2 5 (by norm_num) (by norm_num) rfl
      (by intro j h1 h2; interval_cases j; exact ⟨1, rfl⟩)

/-- Claim C10: both retry helpers terminate normally with a `Result` only
when `max_retries ≥ 1`; when called with `max_retries = 0` the loop
executes zero iterations, control reaches the trailing `unreachable!()`
and the function panics without ever invoking the supplied operation
(the attempt trace is empty). -/
theorem retry_with_backoff_zero_retries_panics
    (f : Nat → Except E T) (initial_delay : ℚ) (jitter : Nat → ℚ) :
    retry_with_backoff f 0 initial_delay jitter = (.panicked, [], []) ∧
    retry_with_backoff_async f 0 initial_delay jitter = (.panicked, [], []) ∧
    (∀ max_retries, 1 ≤ max_retries →
      (retry_with_backoff f max_retries initial_delay jitter).1 ≠ .panicked ∧
      (retry_with_backoff_async f max_retries initial_delay jitter).1 ≠ .panicked) :=
  ⟨rfl, rfl, fun mr hmr =>
    ⟨retryGo_ne_panicked f mr jitter mr 1 initial_delay (by omega) hmr,
     retryGo_ne_panicked f mr jitter mr 1 initial_delay (by omega) hmr⟩⟩

theorem retry_with_backoff_zero_retries_panics_witness :
    retry_with_backoff (fun _ => (Except.error 0 : Except Nat Nat)) 0 1 (fun _ => 1) =
        (.panicked, [], []) ∧
      (retry_with_backoff (fun _ => (Except.error 0 : Except Nat Nat)) 2 1 (fun _ => 1)).1 ≠
        .panicked :=
  ⟨(retry_with_backoff_zero_retries_panics _ 1 (fun _ => 1)).1,
   ((retry_with_backoff_zero_retries_panics _ 1 (fun _ => 1)).2.2 2 (by norm_num)).1⟩

/-- State of an entry-counter model: the value of the `entries_processed`
atomic counter and, for stating the claims, the number of (successful)
recycles performed so far. -/
structure CounterState where
  entries_processed : Nat
  recycles : Nat
deriving DecidableEq, Repr

namespace IndexWriterRecycler

/-- Model of `IndexWriterRecycler::register_entries_processed`
(src/src/index/writer_recycler.rs:36-47), sequential execution with the
triggered `replace_writer` assumed to succeed: load the counter, add
`num`; if the new total is strictly greater than `entries_before_recycle`
store 0 and recycle, otherwise store the new total. -/
def register_entries_processed (entries_before_recycle : Nat)
    (s : CounterState) (num : Nat) : CounterState :=
  if s.entries_processed + num > entries_before_recycle then
    { entries_processed := 0, recycles := s.recycles + 1 }
  else
    { entries_processed := s.entries_processed + num, recycles := s.recycles }

end IndexWriterRecycler

namespace RecyclingSearchIndex

/-- Model of `RecyclingSearchIndex::register_entries_processed`
(src/src/index/recycling_index.rs:183-190), sequential execution with the
triggered `recycle_self` assumed to succeed: `fetch_add(num)`, then if the
stored total is `≥ entries_before_recycle`, recycle and store 0. -/
def register_entries_processed (entries_before_recycle : Nat)
    (s : CounterState) (num : Nat) : CounterState :=
  if s.entries_processed + num ≥ entries_before_recycle then
    { entries_processed := 0, recycles := s.recycles + 1 }
  else
    { entries_processed := s.entries_processed + num, recycles := s.recycles }

end RecyclingSearchIndex

/-- Writer-side operations that touch the entry counter: an `add`, `remove`
or `remove_by_terms` call reporting `num` processed entries, or an explicit
manual recycle (`SearchIndex::recycle_writer` → `replace_writer`, or a
direct `RecyclingSearchIndex::recycle_self` call). -/
inductive WriterOp where
  | register (num : Nat)
  | explicit_recycle
deriving DecidableEq, Repr

/-- Effect of one writer-side operation on the `IndexWriterRecycler`
counter state (recycles assumed to succeed).  `replace_writer`
(src/src/index/writer_recycler.rs:49-63) never reads or writes
`entries_processed`, so an explicit recycle leaves the counter unchanged. -/
def IndexWriterRecycler.counterStep (entries_before_recycle : Nat)
    (s : CounterState) : WriterOp → CounterState
  | .register num =>
      IndexWriterRecycler.register_entries_processed entries_before_recycle s num
  | .explicit_recycle => { s with recycles := s.recycles + 1 }

/-- Effect of one writer-side operation on the `RecyclingSearchIndex`
counter state (recycles assumed to succeed).  `recycle_self`
(src/src/index/recycling_index.rs:192-228) never reads or writes
`entries_processed`, so an explicit recycle leaves the counter unchanged. -/
def RecyclingSearchIndex.counterStep (entries_before_recycle : Nat)
    (s : CounterState) : WriterOp → CounterState
  | .register num =>
      RecyclingSearchIndex.register_entries_processed entries_before_recycle s num
  | .explicit_recycle => { s with recycles := s.recycles + 1 }

/-- Counterexample to claim C2: in the `IndexWriterRecycler` variant (one
of the two sources the claim cites) the threshold test is strict `>`, so
with `entries_before_recycle = 3`, after `add([A]); add([B,C])` the counter
is 3 and no recycle has occurred — not counter 0 with one recycle as the
claim states. -/
theorem writer_recycler_three_entries_no_recycle :
    IndexWriterRecycler.register_entries_processed 3
        (IndexWriterRecycler.register_entries_processed 3 ⟨0, 0⟩ 1) 2 =
      ⟨3, 0⟩ ∧
    ¬((IndexWriterRecycler.register_entries_processed 3
        (IndexWriterRecycler.register_entries_processed 3 ⟨0, 0⟩ 1) 2).entries_processed = 0 ∧
      (IndexWriterRecycler.register_entries_processed 3
        (IndexWriterRecycler.register_entries_processed 3 ⟨0, 0⟩ 1) 2).recycles = 1) := by
  decide

/-- Claim C2 as amended: the claimed scenario (T = 3, `add([A])` →
counter 1 no recycle, `add([B,C])` → recycle fires and counter 0,
`add([D])` → counter 1) holds for `RecyclingSearchIndex`, whose threshold
test is `≥`; in the `IndexWriterRecycler` variant the test is strict `>`,
so `add([B,C])` leaves the counter at 3 with no recycle and the recycle
instead fires on `add([D])`, resetting the counter to 0. -/
theorem register_entries_scenario_by_variant :
    (RecyclingSearchIndex.register_entries_processed 3 ⟨0, 0⟩ 1 = ⟨1, 0⟩ ∧
     RecyclingSearchIndex.register_entries_processed 3 ⟨1, 0⟩ 2 = ⟨0, 1⟩ ∧
     RecyclingSearchIndex.register_entries_processed 3 ⟨0, 1⟩ 1 = ⟨1, 1⟩) ∧
    (IndexWriterRecycler.register_entries_processed 3 ⟨0, 0⟩ 1 = ⟨1, 0⟩ ∧
     IndexWriterRecycler.register_entries_processed 3 ⟨1, 0⟩ 2 = ⟨3, 0⟩ ∧
     IndexWriterRecycler.register_entries_processed 3 ⟨3, 0⟩ 1 = ⟨0, 1⟩) := by
  decide

/-- Counterexample to claim C7: with `entries_before_recycle = 3`, register
3 entries on a fresh `IndexWriterRecycler` (counter becomes 3, no recycle,
since the test is strict `>`), then perform an explicit manual recycle:
the recycle succeeds but leaves the counter at 3, which is not strictly
less than `entries_before_recycle`. -/
theorem explicit_recycle_leaves_counter_at_threshold :
    (IndexWriterRecycler.counterStep 3
        (IndexWriterRecycler.counterStep 3 ⟨0, 0⟩ (.register 3)) .explicit_recycle).recycles =
      (IndexWriterRecycler.counterStep 3 ⟨0, 0⟩ (.register 3)).recycles + 1 ∧
    ¬(IndexWriterRecycler.counterStep 3
        (IndexWriterRecycler.counterStep 3 ⟨0, 0⟩ (.register 3))
          .explicit_recycle).entries_processed < 3 := by
  decide

/-- Claim C7 as amended: immediately after every successful
threshold-triggered recycle the counter is 0 — hence strictly less than
`entries_before_recycle` whenever the threshold is at least 1 — in both
counter variants; an explicit manual recycle never modifies the counter
(so it can leave the counter equal to the threshold); and any step that
performs no recycle leaves the counter monotonically non-decreasing. -/
theorem counter_zero_after_threshold_recycle
    (T : Nat) (hT : 1 ≤ T) (s : CounterState) (num : Nat) :
    (((IndexWriterRecycler.counterStep T s (.register num)).recycles = s.recycles + 1 →
        (IndexWriterRecycler.counterStep T s (.register num)).entries_processed = 0 ∧
        (IndexWriterRecycler.counterStep T s (.register num)).entries_processed < T) ∧
      (IndexWriterRecycler.counterStep T s .explicit_recycle).entries_processed =
        s.entries_processed ∧
      ((IndexWriterRecycler.counterStep T s (.register num)).recycles = s.recycles →
        s.entries_processed ≤
          (IndexWriterRecycler.counterStep T s (.register num)).entries_processed)) ∧
    (((RecyclingSearchIndex.counterStep T s (.register num)).recycles = s.recycles + 1 →
        (RecyclingSearchIndex.counterStep T s (.register num)).entries_processed = 0 ∧
        (RecyclingSearchIndex.counterStep T s (.register num)).entries_processed < T) ∧
      (RecyclingSearchIndex.counterStep T s .explicit_recycle).entries_processed =
        s.entries_processed ∧
      ((RecyclingSearchIndex.counterStep T s (.register num)).recycles = s.recycles →
        s.entries_processed ≤
          (RecyclingSearchIndex.counterStep T s (.register num)).entries_processed)) := by
  simp only [IndexWriterRecycler.counterStep, RecyclingSearchIndex.counterStep,
    IndexWriterRecycler.register_entries_processed,
    RecyclingSearchIndex.register_entries_processed]
  constructor
  · refine ⟨fun hrec => ?_, trivial, fun hr => ?_⟩
    · split_ifs at hrec ⊢ with h
      · exact ⟨by trivial, hT⟩
      · exact absurd hrec (by simp)
    · split_ifs at hr ⊢ with h
      · exact absurd hr (by simp)
      · exact Nat.le_add_right s.entries_processed num
  · refine ⟨fun hrec => ?_, trivial, fun hr => ?_⟩
    · split_ifs at hrec ⊢ with h
      · exact ⟨by trivial, hT⟩
      · exact absurd hrec (by simp)
    · split_ifs at hr ⊢ with h
      · exact absurd hr (by simp)
      · exact Nat.le_add_right s.entries_processed num

theorem counter_zero_after_threshold_recycle_witness :
    1 ≤ 3 ∧
      (((IndexWriterRecycler.counterStep 3 ⟨2, 0⟩ (.register 2)).recycles = 0 + 1 →
          (IndexWriterRecycler.counterStep 3 ⟨2, 0⟩ (.register 2)).entries_processed = 0 ∧
          (IndexWriterRecycler.counterStep 3 ⟨2, 0⟩ (.register 2)).entries_processed < 3) ∧
        (IndexWriterRecycler.counterStep 3 ⟨2, 0⟩ .explicit_recycle).entries_processed = 2 ∧
        ((IndexWriterRecycler.counterStep 3 ⟨2, 0⟩ (.register 2)).recycles = 0 →
          2 ≤ (IndexWriterRecycler.counterStep 3 ⟨2, 0⟩ (.register 2)).entries_processed)) ∧
      (((RecyclingSearchIndex.counterStep 3 ⟨2, 0⟩ (.register 2)).recycles = 0 + 1 →
          (RecyclingSearchIndex.counterStep 3 ⟨2, 0⟩ (.register 2)).entries_processed = 0 ∧
          (RecyclingSearchIndex.counterStep 3 ⟨2, 0⟩ (.register 2)).entries_processed < 3) ∧
        (RecyclingSearchIndex.counterStep 3 ⟨2, 0⟩ .explicit_recycle).entries_processed = 2 ∧
        ((RecyclingSearchIndex.counterStep 3 ⟨2, 0⟩ (.register 2)).recycles = 0 →
          2 ≤ (RecyclingSearchIndex.counterStep 3 ⟨2, 0⟩ (.register 2)).entries_processed)) :=
  ⟨by norm_num, counter_zero_after_threshold_recycle 3 (by norm_num) ⟨2, 0⟩ 2⟩

/-- The backend triple held behind `RecyclingSearchIndex`'s `RwLock`
(src/src/index/recycling_index.rs:39-43). -/
structure TantivyBackend (Idx Rdr Wtr : Type) where
  writer : Wtr
  reader : Rdr
  index : Idx

/-- Outcomes of the engine and filesystem calls made while constructing an
index backend (`Index::open_in_dir`, `fs::create_dir_all`,
`Index::create_in_dir`, `reader_builder().try_into()`,
`index.writer(buffer_size)`), plus the `index_path.exists()` test that
selects between opening and creating. -/
structure BackendConstruction (E Idx Rdr Wtr : Type) where
  path_exists : Bool
  open_in_dir : Except E Idx
  create_dir_all : Except E Unit
  create_in_dir : Except E Idx
  reader : Except E Rdr
  writer : Except E Wtr

/-- The construction pipeline shared by `SearchIndex::new`
(src/src/index/search_index.rs:36-66 plus writer_recycler.rs:21),
`RecyclingSearchIndex::new` (recycling_index.rs:49-84) and the
reconstruction half of `recycle_self` (recycling_index.rs:199-226):
if the path exists, open the index, else `create_dir_all` (failure hits
`.expect(..)`) and create a fresh index bound to the schema; the index,
reader and writer results are all `.unwrap()`-ed, so every failure panics
(`none`): there is no typed-error channel anywhere in this pipeline. -/
def constructIndex (c : BackendConstruction E Idx Rdr Wtr) : Option Idx :=
  if c.path_exists then
    match c.open_in_dir with
    | .error _ => none
    | .ok index => some index
  else
    match c.create_dir_all with
    | .error _ => none
    | .ok _ =>
      match c.create_in_dir with
      | .error _ => none
      | .ok index => some index

/-- Continuation of `constructIndex`: build the reader and writer, each
`.unwrap()`-ed (failure = panic = `none`). -/
def constructBackend (c : BackendConstruction E Idx Rdr Wtr) :
    Option (TantivyBackend Idx Rdr Wtr) :=
  match constructIndex c with
  | none => none
  | some index =>
    match c.reader with
    | .error _ => none
    | .ok reader =>
      match c.writer with
      | .error _ => none
      | .ok writer => some ⟨writer, reader, index⟩

/-- Model of `IndexWriterRecycler::replace_writer`
(src/src/index/writer_recycler.rs:49-63), as a function of the slot
contents and the outcomes of its two fallible sub-operations.  The code
takes the writer out of the slot (leaving `None`), drains it
(`wait_merging_threads()?`, a typed early return on failure), then builds
the replacement (`self.index.writer(self.mem_budget)?`, also typed) and
installs it.  Returns the call's outcome and the slot contents afterwards. -/
def IndexWriterRecycler.replace_writer (slot : Option W)
    (wait_merging_threads : W → Except E Unit)
    (new_writer : Except E W) : Outcome E Unit × Option W :=
  match slot with
  | some old_writer =>
    match wait_merging_threads old_writer with
    | .error e => (.err e, none)
    | .ok _ =>
      match new_writer with
      | .error e => (.err e, none)
      | .ok w => (.ok (), some w)
  | none =>
    match new_writer with
    | .error e => (.err e, none)
    | .ok w => (.ok (), some w)

/-- Model of `RecyclingSearchIndex::recycle_self`
(src/src/index/recycling_index.rs:192-228).  The code takes the backend
out of the slot (leaving `None`) and drains its writer
(`wait_merging_threads()?`, a typed early return), then rebuilds the
backend with the `constructBackend` pipeline — whose every failure is an
`unwrap`/`expect` panic, not a typed error — and installs it. -/
def RecyclingSearchIndex.recycle_self
    (slot : Option (TantivyBackend Idx Rdr Wtr))
    (wait_merging_threads : Wtr → Except E Unit)
    (c : BackendConstruction E Idx Rdr Wtr) :
    Outcome E Unit × Option (TantivyBackend Idx Rdr Wtr) :=
  match slot with
  | some old_inner =>
    match wait_merging_threads old_inner.writer with
    | .error e => (.err e, none)
    | .ok _ =>
      match constructBackend c with
      | none => (.panicked, none)
      | some b => (.ok (), some b)
  | none =>
    match constructBackend c with
    | none => (.panicked, none)
    | some b => (.ok (), some b)

/-- Model of `SearchIndex::new` (src/src/index/search_index.rs:36-66,
whose writer is built inside `IndexWriterRecycler::new`,
writer_recycler.rs:20-29): the constructor returns the backend directly
(`Self`, no `Result`), and every construction failure panics
(`unwrap`/`expect`), modelled as `none`. -/
def SearchIndex.new (c : BackendConstruction E Idx Rdr Wtr) :
    Option (TantivyBackend Idx Rdr Wtr) :=
  constructBackend c

/-- Model of `RecyclingSearchIndex::new`
(src/src/index/recycling_index.rs:49-84): same pipeline as
`SearchIndex::new`. -/
def RecyclingSearchIndex.new (c : BackendConstruction E Idx Rdr Wtr) :
    Option (TantivyBackend Idx Rdr Wtr) :=
  constructBackend c

/-- Counterexample to claim C3: in `RecyclingSearchIndex::recycle_self`,
when draining succeeds but constructing the replacement writer fails
(`index.writer(self.buffer_size)` returns an error), the attempt panics
via `.unwrap()` instead of returning the error as a typed result.  The
slot is left empty, but the error is not surfaced to the caller. -/
theorem recycle_self_construction_failure_panics :
    RecyclingSearchIndex.recycle_self (E := Nat)
        (some (⟨0, 0, 0⟩ : TantivyBackend Nat Nat Nat))
        (fun _ => Except.ok ())
        ⟨true, Except.ok 0, Except.ok (), Except.ok 0, Except.ok 0, Except.error 7⟩ =
      (.panicked, none) := rfl

/-- Claim C3 as amended: a failure while draining the old writer
(`wait_merging_threads`) is returned as a typed error with the slot left
empty, in both `IndexWriterRecycler::replace_writer` and
`RecyclingSearchIndex::recycle_self`; a failure while constructing the
replacement writer is returned as a typed error with the slot left empty
by `replace_writer`, but in `recycle_self` any construction failure
(open/create of the index, reader, or writer) panics via
`unwrap`/`expect` — the slot is still left empty, but no typed error
reaches the caller. -/
theorem recycle_failure_surfacing_by_variant
    (W E Idx Rdr Wtr : Type) (w : W) (b : TantivyBackend Idx Rdr Wtr)
    (wait_w : W → Except E Unit) (wait_b : Wtr → Except E Unit)
    (new_writer : Except E W) (c : BackendConstruction E Idx Rdr Wtr) (e : E) :
    (wait_w w = .error e →
      IndexWriterRecycler.replace_writer (some w) wait_w new_writer = (.err e, none)) ∧
    (wait_w w = .ok () → new_writer = .error e →
      IndexWriterRecycler.replace_writer (some w) wait_w new_writer = (.err e, none)) ∧
    (wait_b b.writer = .error e →
      RecyclingSearchIndex.recycle_self (some b) wait_b c = (.err e, none)) ∧
    (wait_b b.writer = .ok () → constructBackend c = none →
      RecyclingSearchIndex.recycle_self (some b) wait_b c = (.panicked, none)) := by
  refine ⟨fun h1 => ?_, fun h1 h2 => ?_, fun h1 => ?_, fun h1 h2 => ?_⟩ <;>
    simp [IndexWriterRecycler.replace_writer, RecyclingSearchIndex.recycle_self, h1]
  · rw [h2]
  · rw [h2]

theorem recycle_failure_surfacing_by_variant_witness :
    IndexWriterRecycler.replace_writer (some 0)
        (fun _ : Nat => (Except.error 3 : Except Nat Unit)) (Except.ok 1) =
      (.err 3, none) ∧
    RecyclingSearchIndex.recycle_self (some (⟨0, 0, 0⟩ : TantivyBackend Nat Nat Nat))
        (fun _ => (Except.ok () : Except Nat Unit))
        ⟨true, Except.ok 0, Except.ok (), Except.ok 0, Except.ok 0, Except.error 7⟩ =
      (.panicked, none) :=
  ⟨(recycle_failure_surfacing_by_variant Nat Nat Nat Nat Nat 0 ⟨0, 0, 0⟩
      (fun _ => Except.error 3) (fun _ => Except.error 3) (Except.ok 1)
      ⟨true, Except.ok 0, Except.ok (), Except.ok 0, Except.ok 0, Except.ok 0⟩ 3).1 rfl,
   (recycle_failure_surfacing_by_variant Nat Nat Nat Nat Nat 0 ⟨0, 0, 0⟩
      (fun _ => Except.ok ()) (fun _ => Except.ok ()) (Except.ok 1)
      ⟨true, Except.ok 0, Except.ok (), Except.ok 0, Except.ok 0, Except.error 7⟩
      3).2.2.2 rfl rfl⟩

/-- Counterexample to claim C9: when directory creation fails
(`fs::create_dir_all` returns an error), index construction panics via
`.expect("could not create output directory")` — and when the engine
cannot open the index, it panics via `.unwrap()` — rather than returning
a typed I/O or engine error: `new` returns `Self`, not a `Result`. -/
theorem index_construction_failure_panics :
    SearchIndex.new
        (⟨false, Except.ok 0, Except.error 3, Except.ok 0, Except.ok 0, Except.ok 0⟩ :
          BackendConstruction Nat Nat Nat Nat) = none ∧
    SearchIndex.new
        (⟨true, Except.error 4, Except.ok (), Except.ok 0, Except.ok 0, Except.ok 0⟩ :
          BackendConstruction Nat Nat Nat Nat) = none :=
  ⟨rfl, rfl⟩

/-- Claim C9 as amended: construction opens the existing index when a
persisted index exists at the path (the `path.exists()` test) and
otherwise creates the directory structure and a fresh index bound to the
schema; but when directory creation fails, or the engine cannot open or
create the index, or the reader or writer cannot be built, the
constructor panics (`unwrap`/`expect`) — it returns `Self` and has no
typed-error channel.  `RecyclingSearchIndex::new` runs the identical
pipeline. -/
theorem index_construction_open_or_create
    (E Idx Rdr Wtr : Type) (c : BackendConstruction E Idx Rdr Wtr)
    (i : Idx) (r : Rdr) (w : Wtr) (e : E) :
    (c.path_exists = true → c.open_in_dir = .ok i → c.reader = .ok r →
      c.writer = .ok w → SearchIndex.new c = some ⟨w, r, i⟩) ∧
    (c.path_exists = false → c.create_dir_all = .ok () → c.create_in_dir = .ok i →
      c.reader = .ok r → c.writer = .ok w → SearchIndex.new c = some ⟨w, r, i⟩) ∧
    (c.path_exists = false → c.create_dir_all = .error e → SearchIndex.new c = none) ∧
    (c.path_exists = true → c.open_in_dir = .error e → SearchIndex.new c = none) ∧
    RecyclingSearchIndex.new c = SearchIndex.new c := by
  refine ⟨fun h1 h2 h3 h4 => ?_, fun h1 h2 h3 h4 h5 => ?_, fun h1 h2 => ?_,
    fun h1 h2 => ?_, rfl⟩ <;>
    simp_all [SearchIndex.new, constructBackend, constructIndex]

theorem index_construction_open_or_create_witness :
    SearchIndex.new
        (⟨true, Except.ok 10, Except.ok (), Except.ok 11, Except.ok 20, Except.ok 30⟩ :
          BackendConstruction Nat Nat Nat Nat) = some ⟨30, 20, 10⟩ ∧
    SearchIndex.new
        (⟨false, Except.ok 10, Except.error 5, Except.ok 11, Except.ok 20, Except.ok 30⟩ :
          BackendConstruction Nat Nat Nat Nat) = none :=
  ⟨(index_construction_open_or_create Nat Nat Nat Nat
      ⟨true, Except.ok 10, Except.ok (), Except.ok 11, Except.ok 20, Except.ok 30⟩
      10 20 30 5).1 rfl rfl rfl rfl,
   (index_construction_open_or_create Nat Nat Nat Nat
      ⟨false, Except.ok 10, Except.error 5, Except.ok 11, Except.ok 20, Except.ok 30⟩
      10 20 30 5).2.2.1 rfl rfl⟩

/-- Engine operations issued by one add/remove batch, in order. -/
inductive WriteOp (Term Doc : Type) where
  | delete_term (t : Term)
  | add_document (d : Doc)
  | commit
deriving DecidableEq, Repr

/-- Test for the commit marker among issued operations. -/
def WriteOp.isCommit : WriteOp Term Doc → Bool
  | .commit => true
  | _ => false

/-- Environment of one `add` call: the schema collaborator's pure mappings
(`get_primary_key` and `as_document`, src/src/entity/entity_trait.rs:10-12),
the outcome of `writer.add_document` for each record, the outcome of each
`writer.commit()` attempt inside the retry loop, the retry loop's RNG
draws, and the outcome of the `register_entries_processed(n)` continuation
run after a successful commit — `Ok`, a typed error from the triggered
recycle, or (in the recycling variant) a construction panic; its faithful
instantiations from the counter and recycle models are
`IndexWriterRecycler.register_run` and `RecyclingSearchIndex.register_run`. -/
structure AddEnv (M Term Doc E : Type) where
  get_primary_key : M → Term
  as_document : M → Doc
  add_document : M → Except E Unit
  commit_attempts : Nat → Except E Unit
  jitter : Nat → ℚ
  register : Nat → Outcome E Unit

/-- The `for model in models` loop of `SearchIndex::add`
(src/src/index/search_index.rs:75-81) and `RecyclingSearchIndex::add`
(recycling_index.rs:92-98): for each record, `delete_term` by its primary
key, then `add_document(model.as_document())?` — a failing insert returns
early with that error, after the delete for the failing record has
already been issued.  Returns the loop result and the operations issued. -/
def addLoop (env : AddEnv M Term Doc E) :
    List M → Except E Unit × List (WriteOp Term Doc)
  | [] => (.ok (), [])
  | m :: rest =>
    match env.add_document m with
    | .error e => (.error e, [.delete_term (env.get_primary_key m)])
    | .ok _ =>
      ((addLoop env rest).1,
        .delete_term (env.get_primary_key m) ::
          .add_document (env.as_document m) :: (addLoop env rest).2)

/-- Model of `SearchIndex::commit` (src/src/index/search_index.rs:137-141)
and `RecyclingSearchIndex::commit` (recycling_index.rs:147-151):
`retry_with_backoff(|_| writer.commit(), 3, Duration::from_millis(100))`. -/
def SearchIndex.commit (commit_attempts : Nat → Except E Unit)
    (jitter : Nat → ℚ) : Outcome E Unit :=
  (retry_with_backoff commit_attempts 3 100 jitter).1

/-- Run of `IndexWriterRecycler::register_entries_processed`
(src/src/index/writer_recycler.rs:36-47) with the triggered
`replace_writer` taken from its model: when `entries + num` strictly
exceeds the threshold, the counter is stored as 0 before
`replace_writer().await?` runs, so it is 0 even when the replacement
fails and the typed error propagates; otherwise the new total is stored.
Returns the call outcome, the counter afterwards, and the slot afterwards. -/
def IndexWriterRecycler.register_run (entries_before_recycle counter num : Nat)
    (slot : Option W) (wait_merging_threads : W → Except E Unit)
    (new_writer : Except E W) : Outcome E Unit × Nat × Option W :=
  if counter + num > entries_before_recycle then
    match IndexWriterRecycler.replace_writer slot wait_merging_threads new_writer with
    | (.ok _, slot2) => (.ok (), 0, slot2)
    | (.err e, slot2) => (.err e, 0, slot2)
    | (.panicked, slot2) => (.panicked, 0, slot2)
  else
    (.ok (), counter + num, slot)

/-- Run of `RecyclingSearchIndex::register_entries_processed`
(src/src/index/recycling_index.rs:183-190) with the triggered
`recycle_self` taken from its model: `fetch_add(num)`; if the total
reaches `entries_before_recycle`, run `recycle_self` — its `?` returns
the typed error with the store of 0 skipped (the counter keeps the
total), a construction panic propagates, and only on success is the
counter reset to 0. -/
def RecyclingSearchIndex.register_run (entries_before_recycle counter num : Nat)
    (slot : Option (TantivyBackend Idx Rdr Wtr))
    (wait_merging_threads : Wtr → Except E Unit)
    (c : BackendConstruction E Idx Rdr Wtr) :
    Outcome E Unit × Nat × Option (TantivyBackend Idx Rdr Wtr) :=
  if counter + num ≥ entries_before_recycle then
    match RecyclingSearchIndex.recycle_self slot wait_merging_threads c with
    | (.ok _, slot2) => (.ok (), 0, slot2)
    | (.err e, slot2) => (.err e, counter + num, slot2)
    | (.panicked, slot2) => (.panicked, counter + num, slot2)
  else
    (.ok (), counter + num, slot)

/-- Model of `SearchIndex::add` (src/src/index/search_index.rs:69-89) and
`RecyclingSearchIndex::add` (recycling_index.rs:87-104): acquire the write
lock, `as_mut().unwrap()` the slot's Option — a panic when the slot is
empty — run the delete/insert loop, commit through the retry policy
while still holding the lock, and then (after dropping the lock) run
`register_entries_processed(models_len).await?`
(search_index.rs:85-87, recycling_index.rs:102): `models.len()` is
reported whenever the commit succeeded, the continuation's typed error
propagates out of `add` through the `?`, and a panic inside the triggered
recycle aborts the call.  Returns the call outcome, the engine operations
issued (`.commit` marks the commit attempt), and the count reported to
the recycler (`none` when nothing was reported). -/
def SearchIndex.add (env : AddEnv M Term Doc E) (slot : Option W)
    (models : List M) :
    Outcome E Unit × List (WriteOp Term Doc) × Option Nat :=
  match slot with
  | none => (.panicked, [], none)
  | some _ =>
    match addLoop env models with
    | (.error e, ops) => (.err e, ops, none)
    | (.ok _, ops) =>
      match SearchIndex.commit env.commit_attempts env.jitter with
      | .ok _ =>
        match env.register models.length with
        | .ok _ => (.ok (), ops ++ [.commit], some models.length)
        | .err e => (.err e, ops ++ [.commit], some models.length)
        | .panicked => (.panicked, ops ++ [.commit], some models.length)
      | .err e => (.err e, ops ++ [.commit], none)
      | .panicked => (.panicked, ops ++ [.commit], none)

theorem addLoop_all_ok (env : AddEnv M Term Doc E) (models : List M)
    (hins : ∀ m ∈ models, env.add_document m = .ok ()) :
    addLoop env models =
      (.ok (), models.flatMap fun m =>
        [.delete_term (env.get_primary_key m),
         .add_document (env.as_document m)]) := by
  induction models with
  | nil => rfl
  | cons m rest ih =>
    have hm : env.add_document m = .ok () := hins m (List.mem_cons_self m rest)
    have hrest := ih fun x hx => hins x (List.mem_cons_of_mem m hx)
    simp [addLoop, hm, hrest]

theorem addLoop_first_failure (env : AddEnv M Term Doc E)
    (mbad : M) (rest : List M) (e : E) (hbad : env.add_document mbad = .error e) :
    ∀ pre : List M, (∀ m ∈ pre, env.add_document m = .ok ()) →
      addLoop env (pre ++ mbad :: rest) =
        (.error e,
          (pre.flatMap fun m =>
            [.delete_term (env.get_primary_key m),
             .add_document (env.as_document m)]) ++
            [.delete_term (env.get_primary_key mbad)]) := by
  intro pre
  induction pre with
  | nil => intro _; simp [addLoop, hbad]
  | cons m ps ih =>
    intro hpre
    have hm : env.add_document m = .ok () := hpre m (List.mem_cons_self m ps)
    have hps := ih fun x hx => hpre x (List.mem_cons_of_mem m hx)
    simp [addLoop, hm, hps]

/-- Claim C4: `add` processes the records in order, issuing for each
record a delete by its primary-key term immediately followed by the
insert of its encoded document; after all records it performs exactly one
commit through the retry policy; and only after a successful commit does
it report the number of records in the list to the recycler's entry
counter (after a failed commit nothing is reported and the commit error
is returned), the call's final outcome then mirroring the
`register_entries_processed(...)?` continuation — `Ok(())`, its typed
recycle error, or its panic. -/
theorem add_order_single_commit_then_report
    (env : AddEnv M Term Doc E) (w : W) (models : List M)
    (hins : ∀ m ∈ models, env.add_document m = .ok ()) :
    ((SearchIndex.add env (some w) models).2.1 =
      (models.flatMap fun m =>
        [.delete_term (env.get_primary_key m),
         .add_document (env.as_document m)]) ++ [.commit]) ∧
    ((SearchIndex.add env (some w) models).2.1.countP
      (fun op => op.isCommit) = 1) ∧
    (SearchIndex.commit env.commit_attempts env.jitter = .ok () →
      (SearchIndex.add env (some w) models).2.2 = some models.length ∧
      (env.register models.length = .ok () →
        (SearchIndex.add env (some w) models).1 = .ok ()) ∧
      (∀ e, env.register models.length = .err e →
        (SearchIndex.add env (some w) models).1 = .err e) ∧
      (env.register models.length = .panicked →
        (SearchIndex.add env (some w) models).1 = .panicked)) ∧
    (∀ e, SearchIndex.commit env.commit_attempts env.jitter = .err e →
      (SearchIndex.add env (some w) models).1 = .err e ∧
      (SearchIndex.add env (some w) models).2.2 = none) := by
  have hloop := addLoop_all_ok env models hins
  have hflat : ∀ op ∈ (models.flatMap fun m =>
      ([.delete_term (env.get_primary_key m),
        .add_document (env.as_document m)] : List (WriteOp Term Doc))),
      ¬(op.isCommit = true) := by
    intro op hop
    obtain ⟨m, _, hm⟩ := List.mem_flatMap.mp hop
    simp only [List.mem_cons, List.not_mem_nil, or_false] at hm
    rcases hm with h | h <;> subst h <;> simp [WriteOp.isCommit]
  have h0 : (models.flatMap fun m =>
      ([.delete_term (env.get_primary_key m),
        .add_document (env.as_document m)] : List (WriteOp Term Doc))).countP
        (fun op => op.isCommit) = 0 :=
    List.countP_eq_zero.mpr hflat
  have h1 : (([WriteOp.commit]) : List (WriteOp Term Doc)).countP
      (fun op => op.isCommit) = 1 := rfl
  refine ⟨?_, ?_, fun hc => ?_, fun e hc => ?_⟩
  · cases hcm : SearchIndex.commit env.commit_attempts env.jitter with
    | ok v =>
      cases hreg : env.register models.length <;>
        simp [SearchIndex.add, hloop, hcm, hreg]
    | err e => simp [SearchIndex.add, hloop, hcm]
    | panicked => simp [SearchIndex.add, hloop, hcm]
  · cases hcm : SearchIndex.commit env.commit_attempts env.jitter with
    | ok v =>
      cases hreg : env.register models.length <;>
        simp [SearchIndex.add, hloop, hcm, hreg, List.countP_append, h0, h1]
    | err e => simp [SearchIndex.add, hloop, hcm, List.countP_append, h0, h1]
    | panicked => simp [SearchIndex.add, hloop, hcm, List.countP_append, h0, h1]
  · refine ⟨?_, fun hr => ?_, fun e hr => ?_, fun hr => ?_⟩
    · cases hreg : env.register models.length <;>
        simp [SearchIndex.add, hloop, hc, hreg]
    · simp [SearchIndex.add, hloop, hc, hr]
    · simp [SearchIndex.add, hloop, hc, hr]
    · simp [SearchIndex.add, hloop, hc, hr]
  · constructor <;> simp [SearchIndex.add, hloop, hc]

/-- Environment used by the C4 witness: one record, every insert and the
first commit attempt succeed, and the register continuation (instantiated
from `IndexWriterRecycler.register_run` at the default threshold of
1000000, counter 0) stays below the threshold and returns `Ok`. -/
def addEnvOk : AddEnv Nat Nat Nat Nat :=
  ⟨id, id, fun _ => Except.ok (), fun _ => Except.ok (), fun _ => 1,
   fun n => (IndexWriterRecycler.register_run 1000000 0 n (some 0)
     (fun _ => Except.ok ()) (Except.ok 0)).1⟩

theorem add_order_single_commit_then_report_witness :
    (∀ m ∈ [5], addEnvOk.add_document m = .ok ()) ∧
      ((SearchIndex.add (W := Nat) addEnvOk (some 0) [5]).2.1 =
        ([5].flatMap fun m => [.delete_term m, .add_document m]) ++ [.commit]) ∧
      (SearchIndex.add (W := Nat) addEnvOk (some 0) [5]).2.2 = some 1 ∧
      (SearchIndex.add (W := Nat) addEnvOk (some 0) [5]).1 = .ok () :=
  ⟨fun _ _ => rfl,
    (add_order_single_commit_then_report addEnvOk 0 [5] (fun _ _ => rfl)).1,
    ((add_order_single_commit_then_report addEnvOk 0 [5] (fun _ _ => rfl)).2.2.1
      rfl).1,
    ((add_order_single_commit_then_report addEnvOk 0 [5] (fun _ _ => rfl)).2.2.1
      rfl).2.1 rfl⟩

/-- Claim C8: when inserting some document of the batch fails, `add`
returns that error to the caller, no commit is attempted for the batch
(no `.commit` among the issued operations), nothing is reported to the
recycler, and the deletes already issued for the records processed so far
— including the failing record's own delete — remain staged but
uncommitted. -/
theorem add_insert_failure_aborts_batch
    (env : AddEnv M Term Doc E) (w : W) (pre : List M) (mbad : M)
    (rest : List M) (e : E)
    (hpre : ∀ m ∈ pre, env.add_document m = .ok ())
    (hbad : env.add_document mbad = .error e) :
    SearchIndex.add env (some w) (pre ++ mbad :: rest) =
      (.err e,
        (pre.flatMap fun m =>
          [.delete_term (env.get_primary_key m),
           .add_document (env.as_document m)]) ++
          [.delete_term (env.get_primary_key mbad)],
        none) ∧
    WriteOp.commit ∉ (SearchIndex.add env (some w) (pre ++ mbad :: rest)).2.1 := by
  have hloop := addLoop_first_failure env mbad rest e hbad pre hpre
  constructor
  · simp [SearchIndex.add, hloop]
  · simp only [SearchIndex.add, hloop]
    intro hmem
    rcases List.mem_append.mp hmem with h | h
    · obtain ⟨m, _, hm⟩ := List.mem_flatMap.mp h
      simp only [List.mem_cons, List.not_mem_nil, or_false] at hm
      rcases hm with h' | h' <;> simp at h'
    · simp only [List.mem_cons, List.not_mem_nil, or_false] at h
      simp at h

theorem add_insert_failure_aborts_batch_witness :
    (∀ m ∈ ([] : List Nat),
      (fun _ : Nat => (Except.error 9 : Except Nat Unit)) m = .ok ()) ∧
      ((fun _ : Nat => (Except.error 9 : Except Nat Unit)) 5 = .error 9) ∧
      SearchIndex.add (W := Nat)
        (⟨id, id, fun _ => Except.error 9, fun _ => Except.ok (), fun _ => 1,
          fun _ => .ok ()⟩ :
          AddEnv Nat Nat Nat Nat) (some 0) ([] ++ 5 :: []) =
        (.err 9, [] ++ [.delete_term 5], none) :=
  ⟨fun m hm => absurd hm (List.not_mem_nil m), rfl,
    (add_insert_failure_aborts_batch
      (⟨id, id, fun _ => Except.error 9, fun _ => Except.ok (), fun _ => 1,
        fun _ => .ok ()⟩ :
        AddEnv Nat Nat Nat Nat) 0 [] 5 [] 9
      (fun m hm => absurd hm (List.not_mem_nil m)) rfl).1⟩

/-- Counterexample to claim C6: a failed recycle (draining the old writer
fails) leaves the writer slot empty, and a subsequent `add` call then
finds `None` under the lock and panics at `as_mut().unwrap()`
(src/src/index/search_index.rs:74, recycling_index.rs:91) instead of
suspending until a resource is installed — the empty branch is reachable
and fatal. -/
theorem add_after_failed_recycle_panics :
    (IndexWriterRecycler.replace_writer (some 0)
        (fun _ : Nat => (Except.error 3 : Except Nat Unit)) (Except.ok 1)).2 = none ∧
    (SearchIndex.add (W := Nat)
        (⟨id, id, fun _ => Except.ok (), fun _ => Except.ok (), fun _ => 1,
          fun _ => .ok ()⟩ :
          AddEnv Nat Nat Nat Nat) none [5]).1 = .panicked :=
  ⟨rfl, rfl⟩

/-- Acquisition modes on a `tokio::sync::RwLock`. -/
inductive LockMode where
  | read
  | write
deriving DecidableEq, Repr

/-- Whether an acquisition must wait while another is held: a
`tokio::sync::RwLock` admits many concurrent readers or one writer. -/
def LockMode.conflictsWith : LockMode → LockMode → Bool
  | .read, .read => false
  | _, _ => true

/-- Locks taken on the shared writer-slot `RwLock` by
`RecyclingSearchIndex::query`: `self.inner.read().await`
(src/src/index/recycling_index.rs:165) — the same `RwLock` that guards
the writer. -/
def RecyclingSearchIndex.query_locks : List LockMode := [.read]

/-- Locks taken by `RecyclingSearchIndex::add`: `self.inner.write().await`
(src/src/index/recycling_index.rs:90); `remove` and `remove_by_terms`
do the same (lines 109, 131). -/
def RecyclingSearchIndex.add_locks : List LockMode := [.write]

/-- Locks taken by `RecyclingSearchIndex::recycle_self`:
`self.inner.write().await` (src/src/index/recycling_index.rs:193). -/
def RecyclingSearchIndex.recycle_locks : List LockMode := [.write]

/-- Locks taken by `SearchIndex::query` on the writer slot: none —
it reads only the separate `self.reader` field
(src/src/index/search_index.rs:148-154). -/
def SearchIndex.query_locks : List LockMode := []

/-- Locks taken by `SearchIndex::add` on the writer slot:
`writer.write().await` (src/src/index/search_index.rs:73). -/
def SearchIndex.add_locks : List LockMode := [.write]

/-- Whether an operation acquiring `acquired` can be forced to wait
behind an operation currently holding `held`. -/
def blocksBehind (held acquired : List LockMode) : Bool :=
  acquired.any fun l => held.any fun h => h.conflictsWith l

/-- Counterexample to claim C5: `RecyclingSearchIndex::query` acquires a
read lock on the very `RwLock` that `add`/`remove`/`recycle_self` hold in
write mode, so a query issued while one of those is in progress blocks
until the writer releases the lock — the claimed isolation fails for the
recycling variant. -/
theorem recycling_query_blocks_behind_writers :
    blocksBehind RecyclingSearchIndex.add_locks
        RecyclingSearchIndex.query_locks = true ∧
    blocksBehind RecyclingSearchIndex.recycle_locks
        RecyclingSearchIndex.query_locks = true := by
  decide

/-- Claim C5 as amended: `SearchIndex::query` acquires no lock on the
writer slot at all (it uses the independent `IndexReader` snapshot), so it
neither blocks on nor is blocked by any concurrent writer operation;
`RecyclingSearchIndex::query`, by contrast, read-locks the same `RwLock`
that `add`/`remove`/`recycle_self` write-lock, so it is blocked while any
of those runs (concurrent queries still run in parallel with each other,
as two read acquisitions do not conflict). -/
theorem query_isolation_by_variant :
    SearchIndex.query_locks = [] ∧
    (∀ held, blocksBehind held SearchIndex.query_locks = false) ∧
    (∀ held, blocksBehind SearchIndex.query_locks held = false) ∧
    blocksBehind RecyclingSearchIndex.add_locks
        RecyclingSearchIndex.query_locks = true ∧
    blocksBehind RecyclingSearchIndex.recycle_locks
        RecyclingSearchIndex.query_locks = true ∧
    blocksBehind RecyclingSearchIndex.query_locks
        RecyclingSearchIndex.query_locks = false := by
  refine ⟨rfl, fun held => rfl, fun held => ?_, rfl, rfl, rfl⟩
  simp [blocksBehind, SearchIndex.query_locks]

/-- Claim C6 as amended: when an add/remove caller finds the slot
occupied, the slot access itself never fails — such a call can end in a
panic only through its `register_entries_processed` continuation (the
recycling variant's construction `unwrap` inside a triggered
`recycle_self`); an add arriving while a recycle holds the write lock
waits on the lock rather than observing emptiness; but after a failed
recycle has left the slot empty and released the lock, a subsequent
add/remove observes `None` and panics at `as_mut().unwrap()` instead of
suspending until a resource is installed (and issues no engine
operation). -/
theorem add_slot_empty_branch
    (W : Type) (env : AddEnv M Term Doc E) (models : List M) :
    ((SearchIndex.add (W := W) env none models).1 = .panicked ∧
     (SearchIndex.add (W := W) env none models).2.1 = []) ∧
    (∀ w : W, (SearchIndex.add env (some w) models).1 = .panicked →
      env.register models.length = .panicked) ∧
    (∀ (w : W) (wait : W → Except E Unit) (nw : Except E W) (e : E),
      wait w = .error e →
      (IndexWriterRecycler.replace_writer (some w) wait nw).2 = none) ∧
    blocksBehind RecyclingSearchIndex.recycle_locks
      RecyclingSearchIndex.add_locks = true := by
  refine ⟨⟨rfl, rfl⟩, fun w hpan => ?_, fun w wait nw e he => ?_, rfl⟩
  · rcases hloop : addLoop env models with ⟨res, ops⟩
    cases res with
    | error e => simp [SearchIndex.add, hloop] at hpan
    | ok u =>
      cases u
      cases hc : SearchIndex.commit env.commit_attempts env.jitter with
      | ok v =>
        cases v
        cases hreg : env.register models.length with
        | ok u2 => simp [SearchIndex.add, hloop, hc, hreg] at hpan
        | err e2 => simp [SearchIndex.add, hloop, hc, hreg] at hpan
        | panicked => rfl
      | err e2 => simp [SearchIndex.add, hloop, hc] at hpan
      | panicked =>
        exact absurd hc (retryGo_ne_panicked env.commit_attempts 3 env.jitter
          3 1 100 (by omega) (by omega))
  · simp [IndexWriterRecycler.replace_writer, he]

/-- Environment used by the C6 witness: the single insert and the first
commit attempt succeed, and the register continuation (instantiated from
`RecyclingSearchIndex.register_run` with threshold 1, counter 0) crosses
the threshold and runs a recycle whose writer construction fails — a
panic, as established for C3. -/
def addEnvRecyclePanic : AddEnv Nat Nat Nat Nat :=
  ⟨id, id, fun _ => Except.ok (), fun _ => Except.ok (), fun _ => 1,
   fun n => (RecyclingSearchIndex.register_run 1 0 n
     (some (⟨0, 0, 0⟩ : TantivyBackend Nat Nat Nat))
     (fun _ => Except.ok ())
     ⟨true, Except.ok 0, Except.ok (), Except.ok 0, Except.ok 0,
       Except.error 7⟩).1⟩

theorem add_slot_empty_branch_witness :
    (SearchIndex.add (W := Nat) addEnvRecyclePanic none [5]).1 = .panicked ∧
      addEnvRecyclePanic.register 1 = .panicked ∧
      (IndexWriterRecycler.replace_writer (some 0)
        (fun _ : Nat => (Except.error 3 : Except Nat Unit)) (Except.ok 1)).2 = none :=
  ⟨(add_slot_empty_branch Nat addEnvRecyclePanic [5]).1.1,
   (add_slot_empty_branch Nat addEnvRecyclePanic [5]).2.1 0 rfl,
   (add_slot_empty_branch Nat addEnvRecyclePanic [5]).2.2.1 0
     (fun _ => Except.error 3) (Except.ok 1) 3 rfl⟩

end TantivyExt
